import Mathlib

/-!
Verification of the admin authentication core of `indra_api`.

The definitions below are a shallow embedding of the TypeScript source:
the login service (`auth.service`, function `login`), the auth controller
(`auth.controller`, function `login`), the JWT utilities (`utils/jwt.ts`)
and the authentication middleware (`auth.middleware`, function
`authenticate`).  Machine time is modelled as a natural number of seconds;
the relational store is a record of lists; bcrypt comparison is an
abstract parameter of the login flow.
-/

namespace Indra

/-- One row of `admin_users`.  `locked_until` is `none` when the column is
SQL NULL; timestamps are seconds. -/
structure AccountRow where
  admin_id : Nat
  username : String
  email : String
  password_hash : String
  role : String
  is_active : Bool
  failed_login_attempts : Nat
  locked_until : Option Nat
deriving DecidableEq, Repr

/-- One row of `admin_sessions`, as created by the login procedure. -/
structure SessionRec where
  session_id : String
  admin_id : Nat
  ip_address : Option String
  user_agent : Option String
  expires_at : Nat
  is_active : Bool
deriving DecidableEq, Repr

/-- One row of `activity_log` (append-only audit trail). -/
structure LogEntry where
  log_type : String
  activity_type : String
  message : String
  created_by : String
deriving DecidableEq, Repr

/-- The relational store visible to the authentication core. -/
structure DB where
  accounts : List AccountRow
  sessions : List SessionRec
  activity_log : List LogEntry
  next_session_seq : Nat
deriving DecidableEq, Repr

/-- `SELECT ... FROM admin_users WHERE username = ? OR email = ?`; the
service reads `users[0]`, the first matching row. -/
def lookupByIdentifier (db : DB) (identifier : String) : Option AccountRow :=
  (db.accounts.filter (fun a => a.username = identifier || a.email = identifier)).head?

/-- `UPDATE admin_users ... WHERE admin_id = ?`. -/
def updateAccount (db : DB) (id : Nat) (f : AccountRow → AccountRow) : DB :=
  { db with accounts := db.accounts.map (fun a => if a.admin_id = id then f a else a) }

/-- Row lookup by primary key (first row with the given `admin_id`). -/
def findAccount (db : DB) (id : Nat) : Option AccountRow :=
  (db.accounts.filter (fun a => a.admin_id = id)).head?

/-- The lockout threshold hard-coded in the service's UPDATE statement
(`WHEN failed_login_attempts + 1 >= 5`). -/
def LOCK_THRESHOLD : Nat := 5

/-- `INTERVAL 30 MINUTE`, in seconds. -/
def LOCK_DURATION_SECONDS : Nat := 30 * 60

/-- The single SQL statement the service runs on a wrong password:
`SET failed_login_attempts = failed_login_attempts + 1,
 locked_until = CASE WHEN failed_login_attempts + 1 >= 5
 THEN DATE_ADD(NOW(), INTERVAL 30 MINUTE) ELSE NULL END`. -/
def incrementFailedAttempts (now : Nat) (a : AccountRow) : AccountRow :=
  { a with
    failed_login_attempts := a.failed_login_attempts + 1,
    locked_until :=
      if a.failed_login_attempts + 1 ≥ LOCK_THRESHOLD then
        some (now + LOCK_DURATION_SECONDS)
      else
        none }

/-- `user.locked_until && new Date(user.locked_until) > new Date()`:
locked iff the column is non-NULL and strictly in the future. -/
def isLockedNow (now : Nat) (a : AccountRow) : Bool :=
  match a.locked_until with
  | some t => now < t
  | none => false

/-! ### JWT utilities (`src/utils/jwt.ts`)

Tokens are modelled symbolically: a signed token records the payload, the
secret it was signed with and its expiry; verification succeeds exactly
when the secret matches and the token is unexpired.  A malformed token is
`none`.  The configuration constants are the source's defaults
(`JWT_SECRET`, `JWT_REFRESH_SECRET`, `'8h'`, `'7d'`). -/

structure JWTPayload where
  admin_id : Nat
  username : String
  email : String
  role : String
  session_id : String
deriving DecidableEq, Repr

structure SignedToken where
  payload : JWTPayload
  secret : String
  expires_at : Nat
deriving DecidableEq, Repr

def JWT_SECRET : String := "your_jwt_secret_key"

def JWT_REFRESH_SECRET : String := "your_refresh_secret"

/-- Default access-token lifetime `'8h'`, in seconds. -/
def JWT_EXPIRES_IN_SECONDS : Nat := 8 * 60 * 60

/-- Default refresh-token lifetime `'7d'`, in seconds. -/
def JWT_REFRESH_EXPIRES_IN_SECONDS : Nat := 7 * 24 * 60 * 60

def generateAccessToken (p : JWTPayload) (now : Nat) : SignedToken :=
  ⟨p, JWT_SECRET, now + JWT_EXPIRES_IN_SECONDS⟩

def generateRefreshToken (p : JWTPayload) (now : Nat) : SignedToken :=
  ⟨p, JWT_REFRESH_SECRET, now + JWT_REFRESH_EXPIRES_IN_SECONDS⟩

/-- `jwt.verify`: yields the payload only when the token parses, the
signature matches `secret` and the token is unexpired. -/
def jwtVerify (secret : String) (now : Nat) (tok : Option SignedToken) : Option JWTPayload :=
  match tok with
  | none => none
  | some t => if t.secret = secret && now < t.expires_at then some t.payload else none

/-- `verifyAccessToken`: any `jwt.verify` failure is collapsed to the one
error message. -/
def verifyAccessToken (tok : Option SignedToken) (now : Nat) : Except String JWTPayload :=
  match jwtVerify JWT_SECRET now tok with
  | some p => .ok p
  | none => .error "Invalid or expired token"

/-- `verifyRefreshToken`. -/
def verifyRefreshToken (tok : Option SignedToken) (now : Nat) : Except String JWTPayload :=
  match jwtVerify JWT_REFRESH_SECRET now tok with
  | some p => .ok p
  | none => .error "Invalid or expired refresh token"

/-! ### The stored procedure `admin_auth_login` -/

/-- Result row produced by the login procedure. -/
structure ProcLoginRow where
  status : String
  error_message : String
  admin_id : Nat
  username : String
  email : String
  role : String
  session_id : String
deriving DecidableEq, Repr

/-- Session TTL used by the procedure when creating a session. -/
def SESSION_TTL_SECONDS : Nat := 24 * 60 * 60

/-- Fresh session identifier (models the unguessable id). -/
def freshSessionId (db : DB) : String :=
  "sess-" ++ toString db.next_session_seq

/-- Modelled from the spec: the stored procedure `admin_auth_login`
(`01_admin_auth_login.sql`) is not under `src/` — the repository ships
only its caller (`auth.service.login`) and deployment notes.  Per §4.3
step 5 of the spec, on success it sets `failed_attempts = 0` and
`locked_until = null`, creates a session with a fresh identifier, the
given ip/user-agent and expiry `now + TTL`, writes one `login-success`
activity-log entry, and returns the account summary plus the session id;
a hash mismatch or unknown identifier yields a `fail` row. -/
def admin_auth_login (now : Nat) (db : DB) (identifier : String)
    (storedHash : String) (ip ua : Option String) : Option ProcLoginRow × DB :=
  match lookupByIdentifier db identifier with
  | none => (some ⟨"fail", "Invalid username or password", 0, "", "", "", ""⟩, db)
  | some a =>
    if a.password_hash = storedHash then
      let sid := freshSessionId db
      let db1 := updateAccount db a.admin_id
        (fun x => { x with failed_login_attempts := 0, locked_until := none })
      let db2 : DB :=
        { db1 with
          sessions := db1.sessions ++ [⟨sid, a.admin_id, ip, ua, now + SESSION_TTL_SECONDS, true⟩],
          activity_log := db1.activity_log ++
            [⟨"INFO", "ADMIN_LOGIN_SUCCESS", "Login successful", a.username⟩],
          next_session_seq := db1.next_session_seq + 1 }
      (some ⟨"success", "", a.admin_id, a.username, a.email, a.role, sid⟩, db2)
    else
      (some ⟨"fail", "Invalid username or password", 0, "", "", "", ""⟩, db)

/-! ### The login service (`auth.service.login`) -/

/-- Success payload returned by the service: the procedure's row spread
together with the two freshly minted tokens. -/
structure LoginResponse where
  admin_id : Nat
  username : String
  email : String
  role : String
  session_id : String
  access_token : SignedToken
  refresh_token : SignedToken
deriving DecidableEq, Repr

/-- The tail of `login` after the lock check: active check, bcrypt
comparison, failed-attempt UPDATE, then the stored procedure and token
minting.  `compare` abstracts `bcrypt.compare`. -/
def loginUnlocked (compare : String → String → Bool) (now : Nat) (db : DB)
    (username password : String) (ip ua : Option String) (user : AccountRow) :
    Except String LoginResponse × DB :=
  if !user.is_active then
    (.error "Account is inactive", db)
  else if !(compare password user.password_hash) then
    (.error "Invalid username or password",
      updateAccount db user.admin_id (incrementFailedAttempts now))
  else
    match admin_auth_login now db username user.password_hash ip ua with
    | (none, db1) => (.error "Login failed", db1)
    | (some row, db1) =>
      if row.status = "fail" then
        (.error row.error_message, db1)
      else
        let payload : JWTPayload :=
          ⟨row.admin_id, row.username, row.email, row.role, row.session_id⟩
        (.ok ⟨row.admin_id, row.username, row.email, row.role, row.session_id,
              generateAccessToken payload now, generateRefreshToken payload now⟩,
         db1)

/-- `auth.service.login`: row lookup, lock check, then `loginUnlocked`.
The returned `DB` is the store after the attempt; a thrown `Error`
message is an `Except.error`. -/
def login (compare : String → String → Bool) (now : Nat) (db : DB)
    (username password : String) (ip ua : Option String) :
    Except String LoginResponse × DB :=
  match lookupByIdentifier db username with
  | none => (.error "Invalid username or password", db)
  | some user =>
    match user.locked_until with
    | some t =>
      if now < t then
        (.error ("Account is locked until " ++ toString t), db)
      else
        loginUnlocked compare now db username password ip ua user
    | none => loginUnlocked compare now db username password ip ua user

/-! ### The login controller (`auth.controller.login`)

JavaScript's `error.message.includes(...)` is modelled by list-of-char
infix search; a request-body field is falsy when it is absent (`none`)
or the empty string. -/

/-- `startsWith hay needle`: `needle` is a prefix of `hay`. -/
def startsWith : List Char → List Char → Bool
  | _, [] => true
  | [], _ :: _ => false
  | a :: as, b :: bs => a = b && startsWith as bs

/-- `hasInfix hay needle`: `needle` occurs contiguously in `hay`. -/
def hasInfix : List Char → List Char → Bool
  | [], needle => needle.isEmpty
  | c :: t, needle => startsWith (c :: t) needle || hasInfix t needle

/-- JavaScript `s.includes(needle)`. -/
def strContains (s needle : String) : Bool :=
  hasInfix s.toList needle.toList

/-- The error payload built by `sendError(res, status, code, message)`. -/
structure HttpError where
  status : Nat
  code : String
  message : String
deriving DecidableEq, Repr

/-- What the controller sends: a 200 success body or an error payload. -/
inductive ControllerResult where
  | okRes (body : LoginResponse)
  | errRes (e : HttpError)
deriving DecidableEq, Repr

/-- The controller's catch block: map the thrown message to a status and
machine-readable code, in source order of the `includes` tests. -/
def classifyLoginError (msg : String) : HttpError :=
  if strContains msg "Invalid username or password" then ⟨401, "48002", msg⟩
  else if strContains msg "locked" then ⟨403, "48003", msg⟩
  else if strContains msg "inactive" then ⟨403, "48004", msg⟩
  else ⟨500, "52000", "Login failed"⟩

/-- `auth.controller.login`: reject a falsy `username` or `password` with
`400`/`50000` before any store access, otherwise run the service and map
its outcome. -/
def loginController (compare : String → String → Bool) (now : Nat) (db : DB)
    (userField passField : Option String) (ip ua : Option String) :
    ControllerResult × DB :=
  match userField, passField with
  | some u, some p =>
    if u = "" || p = "" then
      (.errRes ⟨400, "50000", "Username and password are required"⟩, db)
    else
      match login compare now db u p ip ua with
      | (.ok r, db1) => (.okRes r, db1)
      | (.error msg, db1) => (.errRes (classifyLoginError msg), db1)
  | _, _ => (.errRes ⟨400, "50000", "Username and password are required"⟩, db)

/-! ### The authentication middleware (`auth.middleware.authenticate`) -/

/-- One row returned by the `admin_auth_verify_session` procedure. -/
structure VerifySessionRow where
  status : String
  error_message : String
  admin_id : Nat
  username : String
  email : String
  role : String
  mfa_enabled : Bool
  session_id : String
deriving DecidableEq, Repr

/-- The principal the middleware attaches to `req.admin`. -/
structure AdminPrincipal where
  admin_id : Nat
  username : String
  email : String
  role : String
  mfa_enabled : Bool
deriving DecidableEq, Repr

/-- Outcome of the middleware: 401, 500, or `next()` with the attached
principal and `req.session_id`. -/
inductive AuthOutcome where
  | unauthorized (message : String)
  | internalError (message : String)
  | authedNext (admin : AdminPrincipal) (session_id : String)
deriving DecidableEq, Repr

/-- `authenticate`: verify the bearer token, look the token's
`session_id` up in the session store (`admin_auth_verify_session`), and
attach the principal from the looked-up row — never from the token's own
payload.  `store sid = none` models an empty procedure result; an empty
first result set makes the source crash into the outer catch. -/
def authenticate (store : String → Option (List VerifySessionRow))
    (tok : Option SignedToken) (now : Nat) : AuthOutcome :=
  match tok with
  | none => .unauthorized "No token provided"
  | some t =>
    match verifyAccessToken (some t) now with
    | .error _ => .unauthorized "Invalid or expired token"
    | .ok payload =>
      match store payload.session_id with
      | none => .unauthorized "Session not found"
      | some rows =>
        match rows.head? with
        | none => .internalError "Authentication failed"
        | some r =>
          if r.status = "fail" then .unauthorized r.error_message
          else .authedNext ⟨r.admin_id, r.username, r.email, r.role, r.mfa_enabled⟩ r.session_id

/-! ### Concurrency model for the failed-attempt update

The service's failed-attempt write is one SQL UPDATE, i.e. one atomic
read-modify-write executed by the store.  A transaction is a list of
atomic steps; a concurrent execution of two transactions is any
interleaving that preserves each transaction's internal order. -/

/-- All order-preserving interleavings of two lists of atomic steps. -/
def interleavings {α : Type} : List α → List α → List (List α)
  | [], ys => [ys]
  | x :: xs, [] => [x :: xs]
  | x :: xs, y :: ys =>
    (interleavings xs (y :: ys)).map (fun l => x :: l) ++
    (interleavings (x :: xs) ys).map (fun l => y :: l)
termination_by xs ys => xs.length + ys.length

/-- Run a schedule of atomic steps against the store. -/
def runSteps (db : DB) (steps : List (DB → DB)) : DB :=
  steps.foldl (fun d f => f d) db

/-- The store-side footprint of one wrong-password login attempt: the
single atomic UPDATE of `auth.service.login`. -/
def failedLoginTxn (now id : Nat) : List (DB → DB) :=
  [fun db => updateAccount db id (incrementFailedAttempts now)]

/-! ### Concrete fixtures used by the closed witness statements -/

/-- An active, unlocked admin account. -/
def demoAccount : AccountRow :=
  { admin_id := 1, username := "test_admin", email := "admin@example.com",
    password_hash := "h1", role := "admin", is_active := true,
    failed_login_attempts := 0, locked_until := none }

/-- A bcrypt model where `"Secret@123"` is the password behind hash `"h1"`. -/
def demoCompare : String → String → Bool :=
  fun p h => p = "Secret@123" && h = "h1"

/-- A store holding just `demoAccount`. -/
def demoDb : DB := ⟨[demoAccount], [], [], 0⟩

/-! ### Helper lemmas -/

theorem head_filter_map_update (l : List AccountRow) (id : Nat)
    (f : AccountRow → AccountRow) (hf : ∀ a, (f a).admin_id = a.admin_id) :
    ((l.map (fun a => if a.admin_id = id then f a else a)).filter
        (fun a => a.admin_id = id)).head?
      = ((l.filter (fun a => a.admin_id = id)).head?).map f := by
  induction l with
  | nil => rfl
  | cons a t ih =>
    by_cases h : a.admin_id = id
    · simp [List.filter_cons, h, hf a]
    · simp [List.filter_cons, h, ih]

theorem findAccount_updateAccount (db : DB) (id : Nat)
    (f : AccountRow → AccountRow) (hf : ∀ a, (f a).admin_id = a.admin_id) :
    findAccount (updateAccount db id f) id = (findAccount db id).map f :=
  head_filter_map_update db.accounts id f hf

theorem mem_of_lookup (db : DB) (ident : String) (u : AccountRow)
    (h : lookupByIdentifier db ident = some u) : u ∈ db.accounts := by
  unfold lookupByIdentifier at h
  cases hf : db.accounts.filter (fun a => a.username = ident || a.email = ident) with
  | nil => rw [hf] at h; exact absurd h (by simp)
  | cons b t =>
    rw [hf] at h
    simp only [List.head?_cons, Option.some.injEq] at h
    have hmem : u ∈ db.accounts.filter (fun a => a.username = ident || a.email = ident) := by
      rw [hf, ← h]
      exact List.mem_cons_self b t
    exact List.mem_of_mem_filter hmem

theorem findAccount_isSome_of_mem (db : DB) (u : AccountRow)
    (hu : u ∈ db.accounts) : ∃ b, findAccount db u.admin_id = some b := by
  unfold findAccount
  cases hf : db.accounts.filter (fun a => a.admin_id = u.admin_id) with
  | nil =>
    exfalso
    have : u ∈ db.accounts.filter (fun a => a.admin_id = u.admin_id) :=
      List.mem_filter.mpr ⟨hu, by simp⟩
    rw [hf] at this
    simp at this
  | cons b t => exact ⟨b, by simp⟩

/-- Reduce `login` to `loginUnlocked` when the account is not locked. -/
theorem login_eq_loginUnlocked (compare : String → String → Bool) (now : Nat)
    (db : DB) (username password : String) (ip ua : Option String)
    (user : AccountRow)
    (hfind : lookupByIdentifier db username = some user)
    (hnl : isLockedNow now user = false) :
    login compare now db username password ip ua =
      loginUnlocked compare now db username password ip ua user := by
  unfold login
  rw [hfind]
  unfold isLockedNow at hnl
  cases hl : user.locked_until with
  | none => simp [hl]
  | some t =>
    rw [hl] at hnl
    simp only [decide_eq_false_iff_not, Nat.not_lt] at hnl
    simp [hl, Nat.not_lt.mpr hnl]

/-! ### Claim theorems -/

/-- C1: for every account whose `locked_until` is non-null and strictly in
the future, a login attempt — for every bcrypt comparison function, hence
even with the correct password — fails with the account-locked error, and
the store is returned unchanged: `failed_login_attempts` is not
incremented and `locked_until` is not extended.  The statement holds for
all `compare`, which is exactly the lock check running before the
password comparison. -/
theorem locked_account_rejected_before_password
    (compare : String → String → Bool) (now : Nat) (db : DB)
    (username password : String) (ip ua : Option String)
    (user : AccountRow) (t : Nat)
    (hfind : lookupByIdentifier db username = some user)
    (hlock : user.locked_until = some t) (hfut : now < t) :
    login compare now db username password ip ua =
      (.error ("Account is locked until " ++ toString t), db) := by
  unfold login
  rw [hfind]
  simp [hlock, hfut]

/-- Witness for C1: the lock wins even when the submitted password is the
correct one (`demoCompare "Secret@123" "h1" = true`). -/
theorem locked_account_rejected_before_password_witness :
    login demoCompare 1000 ⟨[{ demoAccount with locked_until := some 2000 }], [], [], 0⟩
        "test_admin" "Secret@123" none none =
      (.error ("Account is locked until " ++ toString 2000),
       ⟨[{ demoAccount with locked_until := some 2000 }], [], [], 0⟩) :=
  locked_account_rejected_before_password demoCompare 1000
    ⟨[{ demoAccount with locked_until := some 2000 }], [], [], 0⟩
    "test_admin" "Secret@123" none none
    { demoAccount with locked_until := some 2000 } 2000
    (by decide) (by decide) (by decide)

/-- C8: for every account with `is_active = false` that is not currently
locked, login fails with the account-inactive error for every bcrypt
comparison function (so also with the correct password), and the store is
returned unchanged: no session is created and `failed_login_attempts` is
untouched.  Holding for all `compare` is exactly the active check running
before password verification. -/
theorem inactive_account_rejected_before_password
    (compare : String → String → Bool) (now : Nat) (db : DB)
    (username password : String) (ip ua : Option String)
    (user : AccountRow)
    (hfind : lookupByIdentifier db username = some user)
    (hnl : isLockedNow now user = false)
    (hact : user.is_active = false) :
    login compare now db username password ip ua =
      (.error "Account is inactive", db) := by
  rw [login_eq_loginUnlocked compare now db username password ip ua user hfind hnl]
  unfold loginUnlocked
  simp [hact]

/-- Witness for C8: inactive account, correct password. -/
theorem inactive_account_rejected_before_password_witness :
    login demoCompare 1000 ⟨[{ demoAccount with is_active := false }], [], [], 0⟩
        "test_admin" "Secret@123" none none =
      (.error "Account is inactive",
       ⟨[{ demoAccount with is_active := false }], [], [], 0⟩) :=
  inactive_account_rejected_before_password demoCompare 1000
    ⟨[{ demoAccount with is_active := false }], [], [], 0⟩
    "test_admin" "Secret@123" none none
    { demoAccount with is_active := false }
    (by decide) (by decide) (by decide)

/-- C2: for every login attempt against an existing, unlocked, active
account with a non-matching password, the attempt fails with the
invalid-credentials error and the store change is exactly the one atomic
UPDATE: the account's `failed_login_attempts` grows by one, and
`locked_until` becomes `now + 30` minutes when the new value reaches the
threshold 5, and null otherwise. -/
theorem wrong_password_increments_counter
    (compare : String → String → Bool) (now : Nat) (db : DB)
    (username password : String) (ip ua : Option String) (user : AccountRow)
    (hfind : lookupByIdentifier db username = some user)
    (hnl : isLockedNow now user = false)
    (hact : user.is_active = true)
    (hcmp : compare password user.password_hash = false) :
    login compare now db username password ip ua =
      (.error "Invalid username or password",
       updateAccount db user.admin_id (incrementFailedAttempts now)) ∧
    ∀ a, findAccount db user.admin_id = some a →
      ∃ a2, findAccount (login compare now db username password ip ua).2
                user.admin_id = some a2 ∧
        a2.failed_login_attempts = a.failed_login_attempts + 1 ∧
        a2.locked_until = (if a.failed_login_attempts + 1 ≥ LOCK_THRESHOLD
                           then some (now + LOCK_DURATION_SECONDS) else none) := by
  have hmain : login compare now db username password ip ua =
      (.error "Invalid username or password",
       updateAccount db user.admin_id (incrementFailedAttempts now)) := by
    rw [login_eq_loginUnlocked compare now db username password ip ua user hfind hnl]
    unfold loginUnlocked
    simp [hact, hcmp]
  refine ⟨hmain, ?_⟩
  intro a ha
  rw [hmain]
  rw [findAccount_updateAccount db user.admin_id (incrementFailedAttempts now)
      (fun _ => rfl), ha]
  exact ⟨incrementFailedAttempts now a, rfl, rfl, rfl⟩

/-- Witness for C2: one wrong-password attempt against `demoDb` takes the
counter from 0 to 1 and leaves `locked_until` null. -/
theorem wrong_password_increments_counter_witness :
    ∃ a2, findAccount (login demoCompare 1000 demoDb "test_admin" "Wrong@123"
            none none).2 1 = some a2 ∧
      a2.failed_login_attempts = demoAccount.failed_login_attempts + 1 ∧
      a2.locked_until = (if demoAccount.failed_login_attempts + 1 ≥ LOCK_THRESHOLD
                         then some (1000 + LOCK_DURATION_SECONDS) else none) :=
  (wrong_password_increments_counter demoCompare 1000 demoDb "test_admin"
      "Wrong@123" none none demoAccount
      (by decide) (by decide) (by decide) (by decide)).2
    demoAccount (by decide)

/-- C5: a successful login (account found, unlocked, active, matching
password — the prior counter and any expired lock are arbitrary) returns
a success payload and leaves the account with `failed_login_attempts = 0`
and `locked_until` null. -/
theorem successful_login_resets_lockout
    (compare : String → String → Bool) (now : Nat) (db : DB)
    (username password : String) (ip ua : Option String) (user : AccountRow)
    (hfind : lookupByIdentifier db username = some user)
    (hnl : isLockedNow now user = false)
    (hact : user.is_active = true)
    (hcmp : compare password user.password_hash = true) :
    ∃ resp db1, login compare now db username password ip ua = (.ok resp, db1) ∧
      ∃ a2, findAccount db1 user.admin_id = some a2 ∧
        a2.failed_login_attempts = 0 ∧ a2.locked_until = none := by
  obtain ⟨b, hb⟩ := findAccount_isSome_of_mem db user (mem_of_lookup db username user hfind)
  rw [login_eq_loginUnlocked compare now db username password ip ua user hfind hnl]
  unfold loginUnlocked
  simp only [hact, hcmp, Bool.not_true, Bool.false_eq_true, if_false, ite_false]
  unfold admin_auth_login
  rw [hfind]
  simp only [eq_self_iff_true, ite_true]
  refine ⟨_, _, rfl, ?_⟩
  unfold findAccount at hb
  unfold findAccount updateAccount
  dsimp only
  rw [head_filter_map_update db.accounts user.admin_id
      (fun x => { x with failed_login_attempts := 0, locked_until := none })
      (fun _ => rfl), hb]
  exact ⟨_, rfl, rfl, rfl⟩

/-- Witness for C5: a prior failed-attempt count of 3 is wiped by a
successful login. -/
theorem successful_login_resets_lockout_witness :
    ∃ resp db1,
      login demoCompare 1000
          ⟨[{ demoAccount with failed_login_attempts := 3 }], [], [], 0⟩
          "test_admin" "Secret@123" none none = (.ok resp, db1) ∧
      ∃ a2, findAccount db1 1 = some a2 ∧
        a2.failed_login_attempts = 0 ∧ a2.locked_until = none :=
  successful_login_resets_lockout demoCompare 1000
    ⟨[{ demoAccount with failed_login_attempts := 3 }], [], [], 0⟩
    "test_admin" "Secret@123" none none
    { demoAccount with failed_login_attempts := 3 }
    (by decide) (by decide) (by decide) (by decide)

/-- C3, evaluated at the failing input: a wrong-password attempt against
an existing, active, unlocked account fails as invalid credentials but
appends no activity-log entry at all — the branch runs only the counter
UPDATE and throws, so the `invalid-password` log write required by the
claim (and by the repository's own skipped test `should log activity on
failed login`) never happens. -/
theorem wrong_password_writes_no_activity_log :
    (login demoCompare 1000 demoDb "test_admin" "Wrong@123" none none).1 =
      .error "Invalid username or password" ∧
    (login demoCompare 1000 demoDb "test_admin" "Wrong@123" none none).2.activity_log
      = demoDb.activity_log ∧
    demoDb.activity_log.length = 0 := by
  refine ⟨rfl, rfl, rfl⟩

/-- The controller's catch block sends the invalid-credentials message
with HTTP 401 and code 48002. -/
theorem classify_invalid_credentials :
    classifyLoginError "Invalid username or password" =
      ⟨401, "48002", "Invalid username or password"⟩ := by
  decide

/-- C4: an attempt whose identifier matches no account and an attempt
against an existing, unlocked, active account with a wrong password
produce the exact same externally visible failure: HTTP status 401, code
`48002`, message `Invalid username or password`. -/
theorem unknown_user_and_wrong_password_indistinguishable
    (compare : String → String → Bool) (now : Nat) (db1 db2 : DB)
    (u1 p1 u2 p2 : String) (ip1 ua1 ip2 ua2 : Option String) (user2 : AccountRow)
    (hu1 : u1 ≠ "") (hp1 : p1 ≠ "") (hu2 : u2 ≠ "") (hp2 : p2 ≠ "")
    (hnone : lookupByIdentifier db1 u1 = none)
    (hfind : lookupByIdentifier db2 u2 = some user2)
    (hnl : isLockedNow now user2 = false)
    (hact : user2.is_active = true)
    (hcmp : compare p2 user2.password_hash = false) :
    (loginController compare now db1 (some u1) (some p1) ip1 ua1).1 =
      .errRes ⟨401, "48002", "Invalid username or password"⟩ ∧
    (loginController compare now db2 (some u2) (some p2) ip2 ua2).1 =
      .errRes ⟨401, "48002", "Invalid username or password"⟩ := by
  constructor
  · have h1 : login compare now db1 u1 p1 ip1 ua1 =
        (.error "Invalid username or password", db1) := by
      unfold login
      rw [hnone]
    unfold loginController
    simp [hu1, hp1, h1, classify_invalid_credentials]
  · have h2 : login compare now db2 u2 p2 ip2 ua2 =
        (.error "Invalid username or password",
         updateAccount db2 user2.admin_id (incrementFailedAttempts now)) := by
      rw [login_eq_loginUnlocked compare now db2 u2 p2 ip2 ua2 user2 hfind hnl]
      unfold loginUnlocked
      simp [hact, hcmp]
    unfold loginController
    simp [hu2, hp2, h2, classify_invalid_credentials]

/-- Witness for C4: unknown user `ghost` against an empty store versus
wrong password for `test_admin`. -/
theorem unknown_user_and_wrong_password_indistinguishable_witness :
    (loginController demoCompare 1000 ⟨[], [], [], 0⟩ (some "ghost") (some "x")
        none none).1 =
      .errRes ⟨401, "48002", "Invalid username or password"⟩ ∧
    (loginController demoCompare 1000 demoDb (some "test_admin") (some "Wrong@123")
        none none).1 =
      .errRes ⟨401, "48002", "Invalid username or password"⟩ :=
  unknown_user_and_wrong_password_indistinguishable demoCompare 1000
    ⟨[], [], [], 0⟩ demoDb "ghost" "x" "test_admin" "Wrong@123"
    none none none none demoAccount
    (by decide) (by decide) (by decide) (by decide)
    (by decide) (by decide) (by decide) (by decide) (by decide)

/-- C10: a login request with a missing or empty username or password is
rejected with HTTP 400 and code 50000 by the controller's validation
check, and the store is returned untouched: no account lookup, no
counter change, no session, no activity-log write. -/
theorem missing_credentials_rejected_before_store
    (compare : String → String → Bool) (now : Nat) (db : DB)
    (userField passField : Option String) (ip ua : Option String)
    (h : userField = none ∨ userField = some "" ∨
         passField = none ∨ passField = some "") :
    loginController compare now db userField passField ip ua =
      (.errRes ⟨400, "50000", "Username and password are required"⟩, db) := by
  unfold loginController
  rcases h with h | h | h | h
  · subst h; cases passField <;> rfl
  · subst h; cases passField with
    | none => rfl
    | some p => simp
  · subst h; cases userField <;> rfl
  · subst h; cases userField with
    | none => rfl
    | some u => simp

/-- Witness for C10: both fields absent. -/
theorem missing_credentials_rejected_before_store_witness :
    loginController demoCompare 1000 demoDb none none none none =
      (.errRes ⟨400, "50000", "Username and password are required"⟩, demoDb) :=
  missing_credentials_rejected_before_store demoCompare 1000 demoDb
    none none none none (Or.inl rfl)

/-- A well-signed, unexpired token verifies to its payload. -/
theorem verifyAccessToken_ok (t : SignedToken) (now : Nat)
    (hs : t.secret = JWT_SECRET) (he : now < t.expires_at) :
    verifyAccessToken (some t) now = .ok t.payload := by
  unfold verifyAccessToken jwtVerify
  simp [hs, he]

/-- C6: the principal attached by the middleware comes from the session
store's row for the token's `session_id`, never from the token's own
claims: two verified tokens with the same `session_id` but arbitrary
(possibly different) embedded role/email/username produce identical
outcomes, and when the store returns a non-`fail` row the attached
principal is exactly that row's fields. -/
theorem principal_from_session_store
    (store : String → Option (List VerifySessionRow))
    (t1 t2 : SignedToken) (now : Nat)
    (h1s : t1.secret = JWT_SECRET) (h1e : now < t1.expires_at)
    (h2s : t2.secret = JWT_SECRET) (h2e : now < t2.expires_at)
    (hsid : t1.payload.session_id = t2.payload.session_id) :
    authenticate store (some t1) now = authenticate store (some t2) now ∧
    (∀ r rest, store t1.payload.session_id = some (r :: rest) →
      r.status ≠ "fail" →
      authenticate store (some t1) now =
        .authedNext ⟨r.admin_id, r.username, r.email, r.role, r.mfa_enabled⟩
          r.session_id) := by
  have e1 : authenticate store (some t1) now =
      (match store t1.payload.session_id with
       | none => .unauthorized "Session not found"
       | some rows =>
         match rows.head? with
         | none => .internalError "Authentication failed"
         | some r =>
           if r.status = "fail" then .unauthorized r.error_message
           else .authedNext ⟨r.admin_id, r.username, r.email, r.role, r.mfa_enabled⟩
                  r.session_id) := by
    unfold authenticate
    dsimp only
    rw [verifyAccessToken_ok t1 now h1s h1e]
  have e2 : authenticate store (some t2) now =
      (match store t2.payload.session_id with
       | none => .unauthorized "Session not found"
       | some rows =>
         match rows.head? with
         | none => .internalError "Authentication failed"
         | some r =>
           if r.status = "fail" then .unauthorized r.error_message
           else .authedNext ⟨r.admin_id, r.username, r.email, r.role, r.mfa_enabled⟩
                  r.session_id) := by
    unfold authenticate
    dsimp only
    rw [verifyAccessToken_ok t2 now h2s h2e]
  refine ⟨by rw [e1, e2, hsid], ?_⟩
  intro r rest hrow hr
  rw [e1, hrow]
  simp [hr]

/-- A session row as the store returns it for a live session. -/
def demoSessionRow : VerifySessionRow :=
  { status := "success", error_message := "", admin_id := 7,
    username := "store_user", email := "store@example.com", role := "approver",
    mfa_enabled := false, session_id := "s1" }

/-- A session store holding exactly the session `s1`. -/
def demoStore : String → Option (List VerifySessionRow) :=
  fun sid => if sid = "s1" then some [demoSessionRow] else none

/-- Witness for C6: two tokens that agree on `session_id = "s1"` but
disagree on every embedded claim field give identical outcomes. -/
theorem principal_from_session_store_witness :
    authenticate demoStore
        (some ⟨⟨1, "alice", "a@x", "admin", "s1"⟩, JWT_SECRET, 100⟩) 10 =
      authenticate demoStore
        (some ⟨⟨2, "bob", "b@x", "viewer", "s1"⟩, JWT_SECRET, 200⟩) 10 :=
  (principal_from_session_store demoStore
    ⟨⟨1, "alice", "a@x", "admin", "s1"⟩, JWT_SECRET, 100⟩
    ⟨⟨2, "bob", "b@x", "viewer", "s1"⟩, JWT_SECRET, 200⟩ 10
    rfl (by decide) rfl (by decide) rfl).1

/-- C7: token verification fails closed — a missing/malformed token, a
wrong signing secret, or an expired token all collapse to the single
invalid-or-expired error, and the caller gets no payload; the access and
refresh configurations use distinct secrets and distinct default
lifetimes (8 hours versus 7 days), so a token minted by the refresh
signer never passes access verification and vice versa. -/
theorem token_verification_fails_closed :
    (∀ (tok : Option SignedToken) (now : Nat),
        (∀ t, tok = some t → t.secret ≠ JWT_SECRET ∨ t.expires_at ≤ now) →
        verifyAccessToken tok now = .error "Invalid or expired token") ∧
    (∀ (tok : Option SignedToken) (now : Nat),
        (∀ t, tok = some t → t.secret ≠ JWT_REFRESH_SECRET ∨ t.expires_at ≤ now) →
        verifyRefreshToken tok now = .error "Invalid or expired refresh token") ∧
    JWT_SECRET ≠ JWT_REFRESH_SECRET ∧
    JWT_EXPIRES_IN_SECONDS = 8 * 60 * 60 ∧
    JWT_REFRESH_EXPIRES_IN_SECONDS = 7 * 24 * 60 * 60 ∧
    (∀ (p : JWTPayload) (mintedAt now : Nat),
        verifyAccessToken (some (generateRefreshToken p mintedAt)) now =
          .error "Invalid or expired token") ∧
    (∀ (p : JWTPayload) (mintedAt now : Nat),
        verifyRefreshToken (some (generateAccessToken p mintedAt)) now =
          .error "Invalid or expired refresh token") := by
  refine ⟨?_, ?_, by decide, rfl, rfl, ?_, ?_⟩
  · intro tok now h
    cases tok with
    | none => rfl
    | some t =>
      rcases h t rfl with hs | he
      · unfold verifyAccessToken jwtVerify
        simp [hs]
      · unfold verifyAccessToken jwtVerify
        simp [Nat.not_lt.mpr he]
  · intro tok now h
    cases tok with
    | none => rfl
    | some t =>
      rcases h t rfl with hs | he
      · unfold verifyRefreshToken jwtVerify
        simp [hs]
      · unfold verifyRefreshToken jwtVerify
        simp [Nat.not_lt.mpr he]
  · intro p mintedAt now
    unfold verifyAccessToken jwtVerify generateRefreshToken
    simp [JWT_SECRET, JWT_REFRESH_SECRET]
  · intro p mintedAt now
    unfold verifyRefreshToken jwtVerify generateAccessToken
    simp [JWT_SECRET, JWT_REFRESH_SECRET]

/-- Witness for C7: a token signed with the refresh secret is rejected by
access verification even while unexpired. -/
theorem token_verification_fails_closed_witness :
    verifyAccessToken
        (some ⟨⟨1, "u", "e", "admin", "s1"⟩, JWT_REFRESH_SECRET, 1000⟩) 0 =
      .error "Invalid or expired token" :=
  token_verification_fails_closed.1
    (some ⟨⟨1, "u", "e", "admin", "s1"⟩, JWT_REFRESH_SECRET, 1000⟩) 0
    (fun t ht => by
      cases ht
      exact Or.inl (by decide))

/-- The interleavings of two single-step transactions are the two serial
orders. -/
theorem interleavings_singleton {α : Type} (x y : α) :
    interleavings [x] [y] = [[x, y], [y, x]] := by
  simp [interleavings]

/-- C9: the failed-attempt update is one atomic read-modify-write, so for
every schedule of two concurrent wrong-password attempts against the same
account both increments survive: the final counter is the initial one
plus two, never plus one. -/
theorem concurrent_failed_attempts_both_counted
    (db : DB) (id now1 now2 : Nat) (a : AccountRow) (s : List (DB → DB))
    (ha : findAccount db id = some a)
    (hs : s ∈ interleavings (failedLoginTxn now1 id) (failedLoginTxn now2 id)) :
    ∃ a2, findAccount (runSteps db s) id = some a2 ∧
      a2.failed_login_attempts = a.failed_login_attempts + 2 := by
  unfold failedLoginTxn at hs
  rw [interleavings_singleton] at hs
  have upd : ∀ (n : Nat) (d : DB) (b : AccountRow), findAccount d id = some b →
      findAccount (updateAccount d id (incrementFailedAttempts n)) id =
        some (incrementFailedAttempts n b) := by
    intro n d b hb
    rw [findAccount_updateAccount d id (incrementFailedAttempts n) (fun _ => rfl), hb]
    rfl
  simp only [List.mem_cons, List.mem_singleton] at hs
  rcases hs with h | h | h
  · subst h
    exact ⟨_, upd now2 _ _ (upd now1 db a ha), rfl⟩
  · subst h
    exact ⟨_, upd now1 _ _ (upd now2 db a ha), rfl⟩
  · exact absurd h (by simp)

/-- Witness for C9: both serial orders of two concurrent wrong-password
attempts against `demoDb` leave the counter at 2. -/
theorem concurrent_failed_attempts_both_counted_witness :
    ∃ a2, findAccount
        (runSteps demoDb [fun db => updateAccount db 1 (incrementFailedAttempts 50),
                          fun db => updateAccount db 1 (incrementFailedAttempts 60)]) 1 =
        some a2 ∧
      a2.failed_login_attempts = demoAccount.failed_login_attempts + 2 :=
  concurrent_failed_attempts_both_counted demoDb 1 50 60 demoAccount
    [fun db => updateAccount db 1 (incrementFailedAttempts 50),
     fun db => updateAccount db 1 (incrementFailedAttempts 60)]
    (by decide)
    (by unfold failedLoginTxn
        rw [interleavings_singleton]
        exact List.mem_cons_self _ _)

end Indra
